import Mathlib

/-!
Verification of the Playback Relay Engine of the Radio TX Studio backend
(server.js).  The backend keeps a single mutable record `STATE`
`{playing, currentFile, bytesSent, durationSec, byteRate}` together with two
resource handles `activeSocket` (outbound TCP connection) and
`activeReadStream` (file read cursor).  The HTTP handlers `POST /api/play`,
`POST /api/pause`, `GET /api/stream-status` and the read-stream callbacks
(`data`, `end`) are embedded below as pure functions over an explicit state,
following the source line by line.  Two views are used.  For the claims about
a single request, each handler is one state transition (Node runs each
synchronous stretch to completion).  The play handler, however, is an
`async` function whose teardown calls `activeSocket.end()` — a graceful
shutdown that leaves the old TCP connection open until its asynchronous
`close` event — and whose connect callback fires later on the event loop;
for the resource-lifecycle claim these suspension points matter, so a finer
event-loop model (`AsyncState`/`asyncStep`) embeds the socket and read-stream
lifecycle across interleaved events.
-/

namespace RadioTx

/-- Result of `inspectWav` when the promise resolves: the fields relevant to
the engine (`duration`, `byteRate`), each possibly `null` in JS (modelled as
`Option`).  A rejected promise is modelled by the caller receiving `none` for
the whole record (`.catch(() => ({}))` yields an object whose fields are both
`undefined`, i.e. `⟨none, none⟩`). -/
structure InspectResult where
  duration : Option Nat
  byteRate : Option Nat
deriving Repr, DecidableEq

/-- JS `v || prior` on a number that may be `undefined`/`null`: a missing or
zero (falsy) value keeps the prior one. -/
def jsOr (v : Option Nat) (prior : Nat) : Nat :=
  match v with
  | none => prior
  | some n => if n = 0 then prior else n

/-- Payload of a `{type: 'status', ...}` WebSocket broadcast.  `currentFile`
is `some f` when the payload carries a `currentFile` field with value `f`,
and `none` when the field is absent from the payload. -/
structure StatusMsg where
  playing : Bool
  currentFile : Option String
deriving Repr, DecidableEq

/-- HTTP outcome of `POST /api/play`.  `hang` records that no response is
ever written: the handler only calls `res.json` inside the TCP connect
success callback, and a socket `error` event does not reach the
`try`/`catch` around the handler body. -/
inductive PlayResult
  | badRequest (msg : String)
  | notFound (msg : String)
  | ok
  | hang
deriving Repr, DecidableEq

/-- The server's mutable state: the `STATE` record plus the two module-level
handles.  `conn = true` models a live `activeSocket`; `cursor = some p`
models a live `activeReadStream` whose next read position is byte `p` of the
current file. -/
structure ServerState where
  playing : Bool
  currentFile : Option String
  bytesSent : Nat
  durationSec : Nat
  byteRate : Nat
  conn : Bool
  cursor : Option Nat
deriving Repr, DecidableEq

/-- Process-start state: all `STATE` fields at rest, no handles. -/
def initState : ServerState :=
  { playing := false, currentFile := none, bytesSent := 0, durationSec := 0,
    byteRate := 0, conn := false, cursor := none }

/-- `cleanupStream(resetBytes)`: destroy both handles (releasing the
underlying resources, idempotently) and null them; reset `bytesSent` only
when asked.  It never touches `playing`, `currentFile`, `durationSec` or
`byteRate`. -/
def cleanupStream (resetBytes : Bool) (s : ServerState) : ServerState :=
  { s with
    cursor := none
    conn := false
    bytesSent := if resetBytes then 0 else s.bytesSent }

/-- `POST /api/play`.  Parameters model the handler's environment:
`fs f` is the byte length of the stored file with id `f` (`none` when
`fs.existsSync` is false), `inspect` is the metadata inspector (`none` for a
rejected promise), `connectOk` tells whether the outbound TCP connect to the
sink succeeds, and `body` is the request body's `fileId` (`none` when the
key is absent).  Returns the HTTP outcome, the new state, and the list of
status broadcasts emitted.  Mirrors the source order: falsy-`fileId` check,
`existsSync` check, inspect with `.catch(() => ({}))` and `||`-updates of
`durationSec`/`byteRate`, `currentFile := fileId`, teardown of any existing
socket and read stream, then the connect attempt.  On connect success the
read stream is opened with `opts.start = bytesSent` when `bytesSent > 0`
(otherwise no `start` option, i.e. position 0), `playing` is set and a
status naming `currentFile` is broadcast; on connect failure the socket
`error` handler runs `cleanupStream()` and broadcasts `{playing: false}`
(the subsequent `close` handler repeats the same idempotent cleanup), and no
HTTP response is sent. -/
def play (fs : String → Option Nat) (inspect : String → Option InspectResult)
    (connectOk : Bool) (body : Option String) (s : ServerState) :
    PlayResult × ServerState × List StatusMsg :=
  match body with
  | none => (.badRequest "fileId required", s, [])
  | some fileId =>
    if fileId = "" then (.badRequest "fileId required", s, [])
    else match fs fileId with
    | none => (.notFound "file not found", s, [])
    | some _len =>
      let info := (inspect fileId).getD ⟨none, none⟩
      let s1 : ServerState :=
        { s with
          durationSec := jsOr info.duration s.durationSec
          byteRate := jsOr info.byteRate s.byteRate
          currentFile := some fileId }
      let s2 : ServerState :=
        { s1 with
          conn := false
          cursor := none }
      if connectOk then
        let start := if 0 < s2.bytesSent then s2.bytesSent else 0
        let s3 : ServerState :=
          { s2 with
            conn := true
            cursor := some start
            playing := true }
        (.ok, s3, [⟨true, some fileId⟩])
      else
        (.hang, cleanupStream false s2, [⟨false, none⟩])

/-- `POST /api/pause`: destroy the read stream, end the socket,
`cleanupStream(false)` (keeping `bytesSent`), set `playing := false`,
broadcast `{playing: false}`.  The `Bool` is the HTTP outcome: `true` for
`{ok: true}` — nothing in the body throws, so it always succeeds. -/
def pause (s : ServerState) : Bool × ServerState × List StatusMsg :=
  let s1 := cleanupStream false s
  (true, { s1 with playing := false }, [⟨false, none⟩])

/-- Read-stream `data` callback for a chunk of `chunkLen` bytes:
`STATE.bytesSent += chunk.length`; the cursor position advances past the
chunk just read. -/
def onData (chunkLen : Nat) (s : ServerState) : ServerState :=
  { s with
    bytesSent := s.bytesSent + chunkLen
    cursor := s.cursor.map (· + chunkLen) }

/-- Read-stream `end` callback (natural completion): `playing := false`,
`bytesSent := 0`, `cleanupStream()`, broadcast `{playing: false}` (the
payload carries no `currentFile` field). -/
def onEnd (s : ServerState) : ServerState × List StatusMsg :=
  (cleanupStream false { s with playing := false, bytesSent := 0 },
   [⟨false, none⟩])

/-- Snapshot returned by `GET /api/stream-status`. -/
structure StatusSnapshot where
  playing : Bool
  currentFileId : Option String
  position : Nat
  duration : Nat
deriving Repr, DecidableEq

/-- `GET /api/stream-status`: `position` is
`STATE.byteRate ? Math.floor(STATE.bytesSent / STATE.byteRate) : 0` (0 is
falsy) and `duration` is `STATE.durationSec || 0` (identity on `Nat`). -/
def streamStatus (s : ServerState) : StatusSnapshot :=
  { playing := s.playing
    currentFileId := s.currentFile
    position := if s.byteRate = 0 then 0 else s.bytesSent / s.byteRate
    duration := s.durationSec }

/-- Byte indices `[a, b)` of a file, the bytes a read stream transmits when
it runs from position `a` to end-of-file at length `b`. -/
def segment (a b : Nat) : List Nat :=
  List.range' a (b - a)

/-- The byte indices the current session will transmit if it runs to
end-of-file on a file of length `len`: from the cursor position to `len`
(nothing when no cursor is open). -/
def sessionTransmit (len : Nat) (s : ServerState) : List Nat :=
  match s.cursor with
  | none => []
  | some pos => segment pos len

/-- Lifecycle phase of one outbound TCP socket as the operating system sees
it.  `connecting`: handshake initiated, no established connection yet.
`established`: the connection is open.  `finWait`: `socket.end()` was
called — the FIN is sent but the connection remains open until the shutdown
completes and the `close` event is delivered.  `closed`: gone. -/
inductive SockPhase
  | connecting
  | established
  | finWait
  | closed
deriving Repr, DecidableEq

/-- `socket.end()`: graceful shutdown.  An established connection moves to
`finWait` and stays open; on a socket still connecting, Node defers the
shutdown until after the handshake, so the phase is unchanged here and the
connection still establishes; a closed socket is unaffected. -/
def endSock : SockPhase → SockPhase
  | .established => .finWait
  | p => p

/-- Is this socket an open outbound TCP connection right now (established,
or gracefully ended but not yet closed)? -/
def isOpenConn : SockPhase → Bool
  | .established => true
  | .finWait => true
  | _ => false

/-- Event-loop-level state of the play path, used where the one-transition
per-request view is too coarse: every socket the server has created so far
(indexed by creation order) with its OS-level phase, every read stream with
an open flag, the two module-level handle variables (holding indices), and
the `playing` flag.  `STATE` fields irrelevant to resource lifecycles are
omitted. -/
structure AsyncState where
  playing : Bool
  activeSock : Option Nat
  activeStream : Option Nat
  socks : List SockPhase
  streams : List Bool
deriving Repr, DecidableEq

/-- Process-start event-loop state: no sockets, no streams. -/
def asyncInit : AsyncState :=
  { playing := false, activeSock := none, activeStream := none,
    socks := [], streams := [] }

/-- Number of outbound TCP connections currently open. -/
def openConnCount (s : AsyncState) : Nat :=
  (s.socks.filter isOpenConn).length

/-- Number of file read cursors currently open. -/
def openCursorCount (s : AsyncState) : Nat :=
  (s.streams.filter (fun b => b)).length

/-- One event delivered on the play path.  `playArrive f` runs a
`POST /api/play` handler body for an existing file `f` from the point after
the `await inspectWav` suspension up to initiating the outbound connect;
`connectDone sid` delivers the connect-success callback of socket `sid`;
`closeDelivered sid` delivers a socket's `close` event. -/
inductive AsyncEv
  | playArrive (fileId : String)
  | connectDone (sid : Nat)
  | closeDelivered (sid : Nat)
deriving Repr, DecidableEq

/-- Event-loop semantics of the play path, following the source.

`playArrive`: the handler calls `activeSocket.end()` — graceful, so an
established old connection moves to `finWait` and STAYS OPEN — and nulls
the variable, destroys the active read stream (immediate) and nulls it,
then creates a fresh socket and initiates the connect.  It does not wait
for the old socket's `close` event.

`connectDone sid`: the connect-success callback of socket `sid`, which
fires once the handshake completes whether or not `sid` is still the
active socket: the socket becomes established; the callback opens a new
read stream and overwrites `activeReadStream` with it — without destroying
whatever stream the variable previously held — and sets `playing := true`.

`closeDelivered sid`: the `close` handler registered on every socket runs
`cleanupStream()`, which destroys the CURRENT `activeReadStream` and
`activeSocket` — possibly a newer session's handles — and nulls both; it
does not touch `STATE.playing`. -/
def asyncStep (e : AsyncEv) (s : AsyncState) : AsyncState :=
  match e with
  | .playArrive _f =>
      let s1 :=
        match s.activeSock with
        | none => s
        | some i =>
            { s with
              socks := s.socks.set i (endSock (s.socks.getD i .closed))
              activeSock := none }
      let s2 :=
        match s1.activeStream with
        | none => s1
        | some j =>
            { s1 with
              streams := s1.streams.set j false
              activeStream := none }
      { s2 with
        socks := s2.socks ++ [.connecting]
        activeSock := some s2.socks.length }
  | .connectDone sid =>
      if s.socks.getD sid .closed = .connecting then
        { s with
          socks := s.socks.set sid .established
          streams := s.streams ++ [true]
          activeStream := some s.streams.length
          playing := true }
      else s
  | .closeDelivered sid =>
      if isOpenConn (s.socks.getD sid .closed) then
        let s1 := { s with socks := s.socks.set sid .closed }
        let s2 :=
          match s1.activeStream with
          | none => s1
          | some j =>
              { s1 with
                streams := s1.streams.set j false
                activeStream := none }
        match s2.activeSock with
        | none => s2
        | some i =>
            { s2 with socks := s2.socks.set i .closed, activeSock := none }
      else s

/-- Process a finite sequence of event-loop deliveries from process
start. -/
def asyncRun (es : List AsyncEv) : AsyncState :=
  es.foldl (fun t e => asyncStep e t) asyncInit

/-- Play-while-streaming trace: play `a.wav`, its connect callback fires
(connection 0 established, cursor 0 open), then play `b.wav` while
streaming, then `b.wav`'s connect callback fires. -/
def c3Trace : List AsyncEv :=
  [.playArrive "a.wav", .connectDone 0, .playArrive "b.wav",
   .connectDone 1]

/-- Overlapping-handlers trace: two play requests interleave at their
suspension points before either connect callback fires, then both
callbacks are delivered. -/
def c3TraceOverlap : List AsyncEv :=
  [.playArrive "a.wav", .playArrive "b.wav", .connectDone 0,
   .connectDone 1]

/-- A two-file store used in the concrete counterexample traces:
`a.wav` has 100 bytes, `b.wav` has 80 bytes. -/
def fsAB : String → Option Nat := fun f =>
  if f = "a.wav" then some 100 else if f = "b.wav" then some 80 else none

/-- An inspector that always succeeds with duration 10 s and byte rate 4
bytes/s, used in the concrete traces. -/
def inspC : String → Option InspectResult := fun _ => some ⟨some 10, some 4⟩

/-- C1: playing a file id that differs from `currentFile` does NOT reset
`byteOffset` to 0.  Failing trace evaluated on the embedded handler: play
`a.wav` from the initial state, transfer a 5-byte chunk, pause (so
`bytesSent = 5`, `currentFile = a.wav`), then play `b.wav`.  The handler
succeeds but keeps `bytesSent = 5` and opens the read cursor of `b.wav` at
byte 5 — the play handler contains no reset of `bytesSent` at all (it is
overwritten `currentFile` before any comparison could happen), contradicting
the claimed reset-on-different-file semantics. -/
theorem play_new_file_inherits_stale_offset :
    (play fsAB inspC true (some "b.wav")
        (pause (onData 5 (play fsAB inspC true (some "a.wav")
          initState).2.1)).2.1).1 = PlayResult.ok ∧
    (play fsAB inspC true (some "b.wav")
        (pause (onData 5 (play fsAB inspC true (some "a.wav")
          initState).2.1)).2.1).2.1.currentFile = some "b.wav" ∧
    (play fsAB inspC true (some "b.wav")
        (pause (onData 5 (play fsAB inspC true (some "a.wav")
          initState).2.1)).2.1).2.1.bytesSent = 5 ∧
    (play fsAB inspC true (some "b.wav")
        (pause (onData 5 (play fsAB inspC true (some "a.wav")
          initState).2.1)).2.1).2.1.cursor = some 5 := by
  refine ⟨rfl, rfl, rfl, rfl⟩

/-- C2 counterexample: when the outbound connect fails, SessionState does
not remain in its pre-play state and no `ConnectError` is surfaced.
Concrete trace: from a paused session on `a.wav` (`currentFile = a.wav`,
`bytesSent = 5`), `play("b.wav")` with the sink refusing the connection
leaves `currentFile = b.wav` (so the state differs from the pre-call state)
and produces no HTTP response at all (`hang`: `res.json` is only called in
the connect success callback, and the socket `error` event never reaches the
handler's `try`/`catch`). -/
theorem play_connect_fail_mutates_state :
    (play fsAB inspC false (some "b.wav")
        (pause (onData 5 (play fsAB inspC true (some "a.wav")
          initState).2.1)).2.1).1 = PlayResult.hang ∧
    (play fsAB inspC false (some "b.wav")
        (pause (onData 5 (play fsAB inspC true (some "a.wav")
          initState).2.1)).2.1).2.1.currentFile = some "b.wav" ∧
    (pause (onData 5 (play fsAB inspC true (some "a.wav")
        initState).2.1)).2.1.currentFile = some "a.wav" ∧
    (play fsAB inspC false (some "b.wav")
        (pause (onData 5 (play fsAB inspC true (some "a.wav")
          initState).2.1)).2.1).2.1 ≠
      (pause (onData 5 (play fsAB inspC true (some "a.wav")
        initState).2.1)).2.1 := by
  refine ⟨rfl, rfl, rfl, by decide⟩

/-- C2 amended: when the outbound connect to the sink fails on a resolvable
file, the handler sends no response to the caller (no `ConnectError` is
surfaced — the request hangs), `playing` and `byteOffset` are unchanged and
the connection and cursor are released, but `currentFile` has already been
set to the requested file id before the connection attempt, so SessionState
is not the full pre-play state. -/
theorem play_connect_fail_spec (fs : String → Option Nat)
    (inspect : String → Option InspectResult) (f : String) (len : Nat)
    (s : ServerState) (hne : f ≠ "") (hf : fs f = some len) :
    (play fs inspect false (some f) s).1 = PlayResult.hang ∧
    (play fs inspect false (some f) s).2.1.playing = s.playing ∧
    (play fs inspect false (some f) s).2.1.bytesSent = s.bytesSent ∧
    (play fs inspect false (some f) s).2.1.conn = false ∧
    (play fs inspect false (some f) s).2.1.cursor = none ∧
    (play fs inspect false (some f) s).2.1.currentFile = some f ∧
    (play fs inspect false (some f) s).2.2 = [⟨false, none⟩] := by
  simp [play, hne, hf, cleanupStream]

/-- Witness for `play_connect_fail_spec` at `f = "b.wav"`, `len = 80`,
starting from the initial state. -/
theorem play_connect_fail_spec_witness :
    (play fsAB inspC false (some "b.wav") initState).1 = PlayResult.hang ∧
    (play fsAB inspC false (some "b.wav") initState).2.1.playing =
      initState.playing ∧
    (play fsAB inspC false (some "b.wav") initState).2.1.bytesSent =
      initState.bytesSent ∧
    (play fsAB inspC false (some "b.wav") initState).2.1.conn = false ∧
    (play fsAB inspC false (some "b.wav") initState).2.1.cursor = none ∧
    (play fsAB inspC false (some "b.wav") initState).2.1.currentFile =
      some "b.wav" ∧
    (play fsAB inspC false (some "b.wav") initState).2.2 =
      [⟨false, none⟩] :=
  play_connect_fail_spec fsAB inspC "b.wav" 80 initState
    (by decide) (by decide)

/-- C3: the code violates the at-most-one-connection claim.  Evaluating the
event-loop embedding at the failing traces: after play `a.wav`, its connect
callback, play `b.wav` (whose teardown calls `activeSocket.end()` — graceful,
leaving connection 0 open in FIN-WAIT) and `b.wav`'s connect callback, TWO
outbound connections are open at once.  When connection 0's deferred `close`
event is then delivered, its handler's `cleanupStream()` destroys the NEW
session's socket and cursor (both handle variables nulled, no connection and
no cursor left) while `playing` stays true — the prior session is not torn
down fully before the new one begins, and its stale callback kills the
replacement.  In the overlapped-handlers trace, two read cursors are open
simultaneously as well. -/
theorem two_connections_coexist :
    openConnCount (asyncRun c3Trace) = 2 ∧
    (asyncRun c3Trace).playing = true ∧
    openConnCount (asyncRun (c3Trace ++ [.closeDelivered 0])) = 0 ∧
    openCursorCount (asyncRun (c3Trace ++ [.closeDelivered 0])) = 0 ∧
    (asyncRun (c3Trace ++ [.closeDelivered 0])).activeSock = none ∧
    (asyncRun (c3Trace ++ [.closeDelivered 0])).activeStream = none ∧
    (asyncRun (c3Trace ++ [.closeDelivered 0])).playing = true ∧
    openCursorCount (asyncRun c3TraceOverlap) = 2 := by
  refine ⟨rfl, rfl, rfl, rfl, rfl, rfl, rfl, rfl⟩

/-- C4 counterexample: the status broadcast on natural completion does not
name the completed file.  Concrete trace: play `a.wav`, transfer 5 bytes,
then the stream ends; `currentFile` in the state is still `a.wav`, but the
single event published by the `end` handler is `{playing: false}` with no
`currentFile` field (`none`), not `some "a.wav"`. -/
theorem completion_event_omits_file :
    (onData 5 (play fsAB inspC true (some "a.wav")
        initState).2.1).currentFile = some "a.wav" ∧
    ((onEnd (onData 5 (play fsAB inspC true (some "a.wav")
        initState).2.1)).2).map StatusMsg.currentFile = [none] := by
  refine ⟨rfl, rfl⟩

/-- C4 amended: on natural completion (`end` callback) the engine closes the
cursor and the connection, resets `byteOffset` to 0, sets `playing` to
false, and publishes exactly one status event — but that event carries only
`{playing: false}` and does not name the completed file; `currentFile` in
the state itself is untouched.  This holds for every state, hence for every
file size, including a zero-length file whose stream ends immediately. -/
theorem natural_completion_spec (s : ServerState) :
    (onEnd s).1.playing = false ∧
    (onEnd s).1.bytesSent = 0 ∧
    (onEnd s).1.conn = false ∧
    (onEnd s).1.cursor = none ∧
    (onEnd s).1.currentFile = s.currentFile ∧
    (onEnd s).2 = [⟨false, none⟩] := by
  refine ⟨rfl, rfl, rfl, rfl, rfl, rfl⟩

/-- C5: `pause` always returns success, sets `playing` to false, closes the
connection and the cursor, and leaves `byteOffset`, `currentFile`,
`byteRate` and `durationSec` exactly unchanged.  In particular, pausing
while already paused or idle (`playing = false`) changes no SessionState
field at all. -/
theorem pause_spec (s : ServerState) :
    (pause s).1 = true ∧
    (pause s).2.1.playing = false ∧
    (pause s).2.1.bytesSent = s.bytesSent ∧
    (pause s).2.1.currentFile = s.currentFile ∧
    (pause s).2.1.byteRate = s.byteRate ∧
    (pause s).2.1.durationSec = s.durationSec ∧
    (pause s).2.1.conn = false ∧
    (pause s).2.1.cursor = none := by
  refine ⟨rfl, rfl, rfl, rfl, rfl, rfl, rfl, rfl⟩

/-- C6: resuming a file after a pause opens the read cursor exactly at the
recorded `byteOffset = k`: the session to come transmits exactly the byte
indices `[k, len)`, which together with the `[0, k)` already transmitted
partition `[0, len)` with no duplicate — no byte is skipped or
retransmitted, and the totals sum to the file length. -/
theorem resume_transmits_from_offset (fs : String → Option Nat)
    (inspect : String → Option InspectResult) (f : String) (len k : Nat)
    (s : ServerState) (hne : f ≠ "") (hf : fs f = some len)
    (hb : s.bytesSent = k) (hk : k ≤ len) :
    (play fs inspect true (some f) s).1 = PlayResult.ok ∧
    (play fs inspect true (some f) s).2.1.cursor = some k ∧
    sessionTransmit len (play fs inspect true (some f) s).2.1 =
      segment k len ∧
    segment 0 k ++ segment k len = segment 0 len ∧
    (segment 0 len).Nodup ∧
    k + (segment k len).length = len := by
  have hcur : (play fs inspect true (some f) s).2.1.cursor = some k := by
    simp only [play, hne, if_false, hf]
    have h2 : (if 0 < s.bytesSent then s.bytesSent else 0) = k := by
      split <;> omega
    simp [h2]
  refine ⟨?_, hcur, ?_, ?_, ?_, ?_⟩
  · simp [play, hne, hf]
  · simp [sessionTransmit, hcur]
  · have h := List.range'_append 0 k (len - k) 1
    rw [Nat.one_mul, Nat.zero_add, Nat.sub_add_cancel hk] at h
    simpa [segment] using h
  · exact List.nodup_range' 0 len
  · simp [segment, Nat.add_sub_cancel' hk]

/-- Witness for `resume_transmits_from_offset`: resume `a.wav`
(100 bytes) from a state paused at `byteOffset = 5`. -/
theorem resume_transmits_from_offset_witness :
    (play fsAB inspC true (some "a.wav")
        (pause (onData 5 (play fsAB inspC true (some "a.wav")
          initState).2.1)).2.1).1 = PlayResult.ok ∧
    (play fsAB inspC true (some "a.wav")
        (pause (onData 5 (play fsAB inspC true (some "a.wav")
          initState).2.1)).2.1).2.1.cursor = some 5 ∧
    sessionTransmit 100 (play fsAB inspC true (some "a.wav")
        (pause (onData 5 (play fsAB inspC true (some "a.wav")
          initState).2.1)).2.1).2.1 = segment 5 100 ∧
    segment 0 5 ++ segment 5 100 = segment 0 100 ∧
    (segment 0 100).Nodup ∧
    5 + (segment 5 100).length = 100 :=
  resume_transmits_from_offset fsAB inspC "a.wav" 100 5 _
    (by decide) (by decide) (by rfl) (by decide)

/-- C7: the status query returns the snapshot of the current state, with
`position` computed as the floor of `byteOffset / byteRate` (`Nat` division
is floor division) when `byteRate` is nonzero, and 0 when `byteRate` is 0
(unknown). -/
theorem stream_status_spec (s : ServerState) :
    (streamStatus s).playing = s.playing ∧
    (streamStatus s).currentFileId = s.currentFile ∧
    (streamStatus s).position =
      (if s.byteRate = 0 then 0 else s.bytesSent / s.byteRate) ∧
    (streamStatus s).duration = s.durationSec := by
  refine ⟨rfl, rfl, rfl, rfl⟩

/-- C8: a `play` request whose file id does not resolve to a stored file
returns 404 `file not found` with the state completely unchanged and no
status broadcast. -/
theorem play_not_found_spec (fs : String → Option Nat)
    (inspect : String → Option InspectResult) (c : Bool) (f : String)
    (s : ServerState) (hne : f ≠ "") (h : fs f = none) :
    play fs inspect c (some f) s = (.notFound "file not found", s, []) := by
  simp [play, hne, h]

/-- Witness for `play_not_found_spec` at `f = "missing.wav"` (not in the
two-file store) from the initial state. -/
theorem play_not_found_spec_witness :
    play fsAB inspC true (some "missing.wav") initState =
      (.notFound "file not found", initState, []) :=
  play_not_found_spec fsAB inspC true "missing.wav" initState
    (by decide) (by decide)

/-- C9: when the metadata inspector fails (rejected promise, caught as an
empty object), playback still proceeds — the connect is attempted and, when
it succeeds, the call returns success with `playing = true` — and
`byteRate` and `durationSec` keep their prior values (0 when never set). -/
theorem play_metadata_failure_spec (fs : String → Option Nat)
    (inspect : String → Option InspectResult) (f : String) (len : Nat)
    (s : ServerState) (hne : f ≠ "") (hf : fs f = some len)
    (hin : inspect f = none) :
    (play fs inspect true (some f) s).1 = PlayResult.ok ∧
    (play fs inspect true (some f) s).2.1.byteRate = s.byteRate ∧
    (play fs inspect true (some f) s).2.1.durationSec = s.durationSec ∧
    (play fs inspect true (some f) s).2.1.playing = true := by
  simp [play, hne, hf, hin, jsOr]

/-- Witness for `play_metadata_failure_spec`: a store holding `a.wav` with
an inspector that always fails. -/
theorem play_metadata_failure_spec_witness :
    (play fsAB (fun _ => none) true (some "a.wav") initState).1 =
      PlayResult.ok ∧
    (play fsAB (fun _ => none) true (some "a.wav") initState).2.1.byteRate =
      initState.byteRate ∧
    (play fsAB (fun _ => none) true
        (some "a.wav") initState).2.1.durationSec =
      initState.durationSec ∧
    (play fsAB (fun _ => none) true (some "a.wav") initState).2.1.playing =
      true :=
  play_metadata_failure_spec fsAB (fun _ => none) "a.wav" 100 initState
    (by decide) (by decide) (by rfl)

/-- C10: a `play` request whose body lacks a `fileId` (key absent, or the
falsy empty string) returns 400 `fileId required` with the state completely
unchanged (connection and cursor included) and no broadcast; this holds for
every store and every inspector, so it happens before any file resolution
or metadata inspection. -/
theorem play_missing_fileid_spec (fs : String → Option Nat)
    (inspect : String → Option InspectResult) (c : Bool) (s : ServerState) :
    play fs inspect c none s = (.badRequest "fileId required", s, []) ∧
    play fs inspect c (some "") s =
      (.badRequest "fileId required", s, []) := by
  refine ⟨rfl, by simp [play]⟩

end RadioTx
